import Mathlib

/-!
# The persistence service of the todo application (`lib/pg-persistence.js`)

A shallow embedding of class `PgPersistence`: the JavaScript that runs on the
fetched rows is written as Lean functions on lists of rows, the SQL statements
the methods send are run against an explicit store of two tables, and a method
that can raise returns an `Except`.
-/

namespace PgPersistence

/-! ## JavaScript values and rows -/

/-- The JavaScript values an identifier property of a row object holds: a number,
or `undefined` when the object has no property of that name. -/
inductive JsVal where
  | undefined
  | number (n : Int)
deriving DecidableEq, Repr

/-- JavaScript truthiness: `undefined` and `0` are falsy, every other number is
truthy. -/
def JsVal.truthy : JsVal → Bool
  | .undefined => false
  | .number n => n != 0

/-- A row of table `todos`, with the columns the statements of the source name:
`INSERT INTO todos (title, todolists_id, username)`, `SET done = NOT done`,
`WHERE todolists_id = $1 AND id = $2 AND username = $3`. -/
structure Todo where
  id : Int
  title : String
  done : Bool
  todolists_id : Int
  username : String
deriving DecidableEq, Repr

/-- A row of table `todolists` as a query returns it:
`INSERT INTO todolists (title, username)`, `WHERE id = $1 AND username = $2`. -/
structure TodoListRow where
  id : Int
  title : String
  username : String
deriving DecidableEq, Repr

/-- A todo-list object once the property `todos` has been set on the row object.
Its `id` is a JavaScript value because `sortedTodoLists` assigns to it. -/
structure TodoList where
  id : JsVal
  title : String
  username : String
  todos : List Todo
deriving DecidableEq, Repr

/-! ## `isDoneTodoList`, `hasUndoneTodos`, `_partitionTodoLists` -/

/-- Source: `todoList.todos.length > 0 && todoList.todos.every(todo => todo.done)`. -/
def isDoneTodoList (todoList : TodoList) : Bool :=
  decide (todoList.todos.length > 0) && todoList.todos.all (fun todo => todo.done)

/-- Source: `todoList.todos.some(todo => !todo.done)`. -/
def hasUndoneTodos (todoList : TodoList) : Bool :=
  todoList.todos.any (fun todo => !todo.done)

/-- One turn of the `forEach` of `_partitionTodoLists` on the pair
`(undone, done)`: the list is pushed onto `done` when it is done and onto
`undone` otherwise. -/
def partitionStep (acc : List TodoList × List TodoList) (todoList : TodoList) :
    List TodoList × List TodoList :=
  if isDoneTodoList todoList then (acc.1, acc.2 ++ [todoList])
  else (acc.1 ++ [todoList], acc.2)

/-- Source: `_partitionTodoLists(todoLists)`: both arrays start empty, the
`forEach` fills them, the result is `undone.concat(done)`. -/
def _partitionTodoLists (todoLists : List TodoList) : List TodoList :=
  let acc := todoLists.foldl partitionStep ([], [])
  acc.1 ++ acc.2

/-! ## The JavaScript part of `sortedTodoLists` -/

/-- The call `allTodos.filter(todo => { return todoList.id = todo.todolist_id; })`
of `sortedTodoLists`, for one todo list whose `id` currently holds `id`: on every
todo, in order, the callback assigns the todo's `todolist_id` property to
`todoList.id` and returns the assigned value, and `filter` keeps the todo when that
value is truthy. The result is the final value of `todoList.id` and the kept todos.

The parameter `todolist_id` is the value of the property of that name on a
fetched row: the declaration of the table is not part of the sources, and the
property is `undefined` on a row that has no column of that name. -/
def filterAssign (todolist_id : Todo → JsVal) (id : JsVal) : List Todo → JsVal × List Todo
  | [] => (id, [])
  | todo :: rest =>
    let assigned := todolist_id todo
    let r := filterAssign todolist_id assigned rest
    (r.1, if assigned.truthy then todo :: r.2 else r.2)

/-- The body of the `forEach` of `sortedTodoLists` for one fetched todo list:
`todoList.todos = allTodos.filter(...)`, with the assignments to `todoList.id`
the filter callback makes. -/
def attachTodos (todolist_id : Todo → JsVal) (allTodos : List Todo) (row : TodoListRow) :
    TodoList :=
  let r := filterAssign todolist_id (.number row.id) allTodos
  { id := r.1, title := row.title, username := row.username, todos := r.2 }

/-- Lines 28 to 39 of `sortedTodoLists`, on the `rows` of the two query results
(`none` for a `rows` that is `undefined`): `undefined` when either is missing,
else every todo list gets its `todos` and the lists are partitioned. -/
def sortedTodoLists.ofRows (todolist_id : Todo → JsVal)
    (allTodoLists : Option (List TodoListRow)) (allTodos : Option (List Todo)) :
    Option (List TodoList) :=
  match allTodoLists, allTodos with
  | some lists, some todos => some (_partitionTodoLists (lists.map (attachTodos todolist_id todos)))
  | _, _ => none

/-- The key of `ORDER BY lower(title)`: the title with its letters in lower case. -/
def lowerTitle (title : String) : List Char :=
  title.toList.map Char.toLower

/-- Ascending case-insensitive title order on todo lists: the order of
`ORDER BY lower(title) ASC`. -/
def titleLe (a b : TodoList) : Prop :=
  lowerTitle a.title ≤ lowerTitle b.title

instance titleLe.decidable : DecidableRel titleLe :=
  fun a b => inferInstanceAs (Decidable (lowerTitle a.title ≤ lowerTitle b.title))

/-! ## Errors and query results -/

/-- A value a query raises: an `Error` object with its `name` and `message`. -/
structure JsError where
  name : String
  message : String
deriving DecidableEq, Repr

/-- `String(error)` on an `Error` object (`Error.prototype.toString`): the message
when the name is empty, the name when the message is empty, else
`name: message`. -/
def JsError.toString (error : JsError) : String :=
  if error.name = "" then error.message
  else if error.message = "" then error.name
  else error.name ++ ": " ++ error.message

/-- The result object of `dbQuery`: the returned rows and the affected-row count. -/
structure QueryResult (ρ : Type) where
  rows : List ρ
  rowCount : Nat
deriving Repr

/-- `RegExp.prototype.test` for a pattern made of literal characters only: the
pattern matches when it occurs at some position of the text. -/
def regexTest (pattern : List Char) : List Char → Bool
  | [] => pattern.isPrefixOf []
  | c :: cs => pattern.isPrefixOf (c :: cs) || regexTest pattern cs

/-- Source: `/duplicate key value violates unique constraint/.test(String(error))`. -/
def isUniqueConstraintViolation (error : JsError) : Bool :=
  regexTest "duplicate key value violates unique constraint".toList error.toString.toList

/-- The `try`/`catch` of `createTodoList` on the outcome of
`await dbQuery(NEW_TODOLIST, title, this.username)`: a result gives
`result.rowCount > 0`, a unique-constraint violation gives `false`, any other
error is thrown again. -/
def createTodoList.ofOutcome {ρ : Type} (outcome : Except JsError (QueryResult ρ)) :
    Except JsError Bool :=
  match outcome with
  | .ok result => .ok (decide (result.rowCount > 0))
  | .error error => if isUniqueConstraintViolation error then .ok false else .error error

/-- A row of table `users`: `SELECT password FROM users WHERE username = $1`. -/
structure UserRow where
  username : String
  password : String
deriving DecidableEq, Repr

/-- The `TypeError` of reading a property of `undefined`. -/
def typeError : JsError :=
  { name := "TypeError", message := "Cannot read properties of undefined" }

/-- Source: `authenticateUser` after `await dbQuery(FIND_HASHED_PASSWORD, username)`,
on the result of the lookup: `false` when `result.rowCount === 0`, else
`bcrypt.compare(password, result.rows[0].password)`. The parameter `compare` is
`bcrypt.compare`; reading `password` of a missing `rows[0]` raises. -/
def authenticateUser.ofResult (compare : String → String → Bool) (password : String)
    (result : QueryResult UserRow) : Except JsError Bool :=
  if result.rowCount = 0 then .ok false
  else
    match result.rows with
    | [] => .error typeError
    | row :: _ => .ok (compare password row.password)

/-! ## The store and the `WHERE` clauses of the statements -/

/-- The values of columns and of statement parameters. -/
inductive SqlVal where
  | null
  | int (n : Int)
  | text (s : String)
  | bool (b : Bool)
deriving DecidableEq, Repr

/-- A JavaScript identifier passed as a statement parameter: `undefined` is sent
as `NULL`. -/
def JsVal.toSql : JsVal → SqlVal
  | .undefined => .null
  | .number n => .int n

/-- The column names that occur in the statements of the source. -/
inductive Col where
  | id
  | title
  | done
  | todolists_id
  | username
  | password
deriving DecidableEq, Repr

/-- The tokens of the `WHERE` clauses of the source: a column name, `=`, a
positional parameter `$n`, `AND`, `NOT`. -/
inductive Tok where
  | col (c : Col)
  | eq
  | param (n : Nat)
  | and
  | not
deriving DecidableEq, Repr

/-- A parsed condition. -/
inductive Cond where
  | colEqParam (c : Col) (n : Nat)
  | boolCol (c : Col)
  | not (c : Cond)
  | and (l r : Cond)
deriving DecidableEq, Repr

/-- `NOT` applied `n` times. -/
def Cond.nots : Nat → Cond → Cond
  | 0, c => c
  | n + 1, c => .not (Cond.nots n c)

/-- The conjunction read so far joined with its next operand (`AND` associates to
the left). -/
def Cond.join (left : Option Cond) (c : Cond) : Cond :=
  match left with
  | none => c
  | some l => .and l c

/-- The parser of a `WHERE` clause: operands separated by `AND`, an operand being
any number of `NOT` followed by `column = $n` or by a bare column. `left` is the
conjunction read so far and `nots` the number of `NOT` read in front of the
operand that is expected next; `none` is a syntax error. -/
def parseWhere.go (left : Option Cond) (nots : Nat) : List Tok → Option Cond
  | .not :: rest => parseWhere.go left (nots + 1) rest
  | [.col c, .eq, .param n] => some (Cond.join left (Cond.nots nots (.colEqParam c n)))
  | .col c :: .eq :: .param n :: .and :: rest =>
    parseWhere.go (some (Cond.join left (Cond.nots nots (.colEqParam c n)))) 0 rest
  | [.col c] => some (Cond.join left (Cond.nots nots (.boolCol c)))
  | .col c :: .and :: rest =>
    parseWhere.go (some (Cond.join left (Cond.nots nots (.boolCol c)))) 0 rest
  | _ => none

/-- The parse of a whole `WHERE` clause. -/
def parseWhere (tokens : List Tok) : Option Cond :=
  parseWhere.go none 0 tokens

/-- The analysis of a parsed condition against a table: every column is one of
the table's, every parameter is one of the `nparams` passed, and a bare column is
the boolean column `done`. -/
def Cond.check (cols : List Col) (nparams : Nat) : Cond → Bool
  | .colEqParam c n => decide (c ∈ cols) && decide (1 ≤ n) && decide (n ≤ nparams)
  | .boolCol c => decide (c ∈ cols) && decide (c = Col.done)
  | .not c => Cond.check cols nparams c
  | .and l r => Cond.check cols nparams l && Cond.check cols nparams r

/-- The three-valued `AND` of SQL (`none` is unknown). -/
def sqlAnd : Option Bool → Option Bool → Option Bool
  | some false, _ => some false
  | _, some false => some false
  | some true, some true => some true
  | _, _ => none

/-- The value of a condition on a row (`row c` is the value of column `c`) under
SQL's three-valued logic: a comparison with `NULL` is unknown. Parameter `$n` is
the `n`-th of `params`, counted from 1. -/
def Cond.eval (row : Col → SqlVal) (params : List SqlVal) : Cond → Option Bool
  | .colEqParam c n =>
    match row c, params.getD (n - 1) .null with
    | .null, _ => none
    | _, .null => none
    | v, p => some (decide (v = p))
  | .boolCol c =>
    match row c with
    | .bool b => some b
    | _ => none
  | .not c => (Cond.eval row params c).map (fun b => !b)
  | .and l r => sqlAnd (Cond.eval row params l) (Cond.eval row params r)

/-- A row is selected by a `WHERE` clause when the condition is true on it. -/
def Cond.holds (row : Col → SqlVal) (params : List SqlVal) (c : Cond) : Bool :=
  Cond.eval row params c == some true

/-- The error of a statement the parser rejects. -/
def syntaxError : JsError :=
  { name := "error", message := "syntax error" }

/-- The error of a statement that names a column its table does not have. -/
def undefinedColumn : JsError :=
  { name := "error", message := "column does not exist" }

/-- The error of an insert or update that breaks a unique constraint. -/
def uniqueViolation : JsError :=
  { name := "error", message := "duplicate key value violates unique constraint" }

/-- Parsing and analysis of the `WHERE` clause of a statement on a table with
columns `cols`, before any row is touched. -/
def prepare (cols : List Col) (tokens : List Tok) (params : List SqlVal) :
    Except JsError Cond :=
  match parseWhere tokens with
  | none => .error syntaxError
  | some c => if Cond.check cols params.length c then .ok c else .error undefinedColumn

/-- The columns of `todos`. -/
def todosCols : List Col := [.id, .title, .done, .todolists_id, .username]

/-- The columns of `todolists`. -/
def todolistsCols : List Col := [.id, .title, .username]

/-- The columns of `users`. -/
def usersCols : List Col := [.username, .password]

/-- The value of a column on a row of `todos`. -/
def Todo.col (t : Todo) : Col → SqlVal
  | .id => .int t.id
  | .title => .text t.title
  | .done => .bool t.done
  | .todolists_id => .int t.todolists_id
  | .username => .text t.username
  | .password => .null

/-- The value of a column on a row of `todolists`. -/
def TodoListRow.col (r : TodoListRow) : Col → SqlVal
  | .id => .int r.id
  | .title => .text r.title
  | .username => .text r.username
  | _ => .null

/-- The value of a column on a row of `users`. -/
def UserRow.col (r : UserRow) : Col → SqlVal
  | .username => .text r.username
  | .password => .text r.password
  | _ => .null

/-- The state of the database: the three tables and the next values of the two
`id` sequences. -/
structure Store where
  users : List UserRow
  todolists : List TodoListRow
  todos : List Todo
  todolistsSeq : Int
  todosSeq : Int
deriving DecidableEq, Repr

/-! ## The statements `dbQuery` runs -/

/-- `SELECT ... FROM todos WHERE ...`, with the rows ordered by `order` (the
`ORDER BY` of the statement, the identity when it has none). -/
def selectTodos (order : List Todo → List Todo) (tokens : List Tok) (params : List SqlVal)
    (s : Store) : Except JsError (QueryResult Todo) :=
  match prepare todosCols tokens params with
  | .error e => .error e
  | .ok c =>
    let rows := order (s.todos.filter (fun t => c.holds t.col params))
    .ok { rows := rows, rowCount := rows.length }

/-- `SELECT ... FROM todolists WHERE ...`, with the rows ordered by `order`. -/
def selectTodoLists (order : List TodoListRow → List TodoListRow) (tokens : List Tok)
    (params : List SqlVal) (s : Store) : Except JsError (QueryResult TodoListRow) :=
  match prepare todolistsCols tokens params with
  | .error e => .error e
  | .ok c =>
    let rows := order (s.todolists.filter (fun r => c.holds r.col params))
    .ok { rows := rows, rowCount := rows.length }

/-- `SELECT ... FROM users WHERE ...`. -/
def selectUsers (tokens : List Tok) (params : List SqlVal) (s : Store) :
    Except JsError (QueryResult UserRow) :=
  match prepare usersCols tokens params with
  | .error e => .error e
  | .ok c =>
    let rows := s.users.filter (fun r => c.holds r.col params)
    .ok { rows := rows, rowCount := rows.length }

/-- `UPDATE todos SET ... WHERE ...`: `set` is the assignment of the `SET` clause;
the result has no rows and counts the updated rows. A statement that fails leaves
the store as it was. -/
def updateTodos (set : Todo → Todo) (tokens : List Tok) (params : List SqlVal) (s : Store) :
    Except JsError (QueryResult Todo) × Store :=
  match prepare todosCols tokens params with
  | .error e => (.error e, s)
  | .ok c =>
    (.ok { rows := [], rowCount := s.todos.countP (fun t => c.holds t.col params) },
      { s with todos := s.todos.map (fun t => if c.holds t.col params then set t else t) })

/-- `DELETE FROM todos WHERE ...`. -/
def deleteTodos (tokens : List Tok) (params : List SqlVal) (s : Store) :
    Except JsError (QueryResult Todo) × Store :=
  match prepare todosCols tokens params with
  | .error e => (.error e, s)
  | .ok c =>
    (.ok { rows := [], rowCount := s.todos.countP (fun t => c.holds t.col params) },
      { s with todos := s.todos.filter (fun t => !c.holds t.col params) })

/-- `INSERT INTO todos (title, todolists_id, username) VALUES ($1, $2, $3)`: the
new row takes its `id` from the sequence and is not done. -/
def insertTodo (title : String) (todolists_id : Int) (username : String) (s : Store) :
    Except JsError (QueryResult Todo) × Store :=
  (.ok { rows := [], rowCount := 1 },
    { s with
      todos := s.todos ++ [{ id := s.todosSeq, title := title, done := false,
                             todolists_id := todolists_id, username := username }],
      todosSeq := s.todosSeq + 1 })

/-- `DELETE FROM todolists WHERE ...`. -/
def deleteTodoLists (tokens : List Tok) (params : List SqlVal) (s : Store) :
    Except JsError (QueryResult TodoListRow) × Store :=
  match prepare todolistsCols tokens params with
  | .error e => (.error e, s)
  | .ok c =>
    (.ok { rows := [], rowCount := s.todolists.countP (fun r => c.holds r.col params) },
      { s with todolists := s.todolists.filter (fun r => !c.holds r.col params) })

/-- Modelled from the spec: the declaration of table `todolists`, which is not
part of the sources, with its uniqueness constraint on (title, username) ("title
is expected unique per username (enforced by the underlying store's uniqueness
constraint ...)"). The number of rows of `rows` that have this title and this
username. -/
def titleCount (title username : String) (rows : List TodoListRow) : Nat :=
  rows.countP (fun r => decide (r.title = title) && decide (r.username = username))

/-- `UPDATE todolists SET title = $1 WHERE ...` (the `WHERE` clause counts its
parameters from `$1` of the statement, so `title` is passed in `params` too). The
statement fails, and changes nothing, when a row it has updated shares its title
and username with another row of the table. -/
def updateTodoListTitle (title : String) (tokens : List Tok) (params : List SqlVal)
    (s : Store) : Except JsError (QueryResult TodoListRow) × Store :=
  match prepare todolistsCols tokens params with
  | .error e => (.error e, s)
  | .ok c =>
    let updated := s.todolists.map
      (fun r => if c.holds r.col params then { r with title := title } else r)
    if s.todolists.any
        (fun r => c.holds r.col params && decide (2 ≤ titleCount title r.username updated)) then
      (.error uniqueViolation, s)
    else
      (.ok { rows := [], rowCount := s.todolists.countP (fun r => c.holds r.col params) },
        { s with todolists := updated })

/-- `INSERT INTO todolists (title, username) VALUES ($1, $2)`: the statement fails
when the user already has a list of this title, else the new row takes its `id`
from the sequence. -/
def insertTodoList (title : String) (username : String) (s : Store) :
    Except JsError (QueryResult TodoListRow) × Store :=
  if 1 ≤ titleCount title username s.todolists then (.error uniqueViolation, s)
  else
    (.ok { rows := [], rowCount := 1 },
      { s with
        todolists := s.todolists ++ [{ id := s.todolistsSeq, title := title,
                                       username := username }],
        todolistsSeq := s.todolistsSeq + 1 })

/-- The order of `ORDER BY lower(title) ASC` on rows of `todolists`. -/
def orderByLowerTitle (rows : List TodoListRow) : List TodoListRow :=
  rows.insertionSort (fun a b => lowerTitle a.title ≤ lowerTitle b.title)

/-- The comparison of `ORDER BY done, lower(title)`: a todo that is not done
comes before one that is, and two todos of the same state by their titles. -/
def doneTitleLe (a b : Todo) : Bool :=
  (!a.done && b.done) || (a.done == b.done && decide (lowerTitle a.title ≤ lowerTitle b.title))

/-- The order of `ORDER BY done, lower(title)` on rows of `todos`. -/
def orderByDoneLowerTitle (rows : List Todo) : List Todo :=
  rows.insertionSort (fun a b => doneTitleLe a b = true)

/-! ## The methods of `PgPersistence`

`username` is `this.username`, set by the constructor from the session. A
method that reads returns its outcome, a method that writes returns its outcome
and the store it leaves. -/

/-- Source: `sortedTodoLists()`. Statements:
`SELECT * FROM todolists WHERE username = $1 ORDER BY lower(title) ASC` and
`SELECT * FROM todos WHERE username = $1`. -/
def sortedTodoLists (todolist_id : Todo → JsVal) (username : String) (s : Store) :
    Except JsError (Option (List TodoList)) :=
  match selectTodoLists orderByLowerTitle [.col .username, .eq, .param 1] [.text username] s,
      selectTodos id [.col .username, .eq, .param 1] [.text username] s with
  | .ok resultTodoLists, .ok resultTodos =>
    .ok (sortedTodoLists.ofRows todolist_id (some resultTodoLists.rows) (some resultTodos.rows))
  | .error e, _ => .error e
  | _, .error e => .error e

/-- Source: `sortedTodos(todoList)`. Statement:
`SELECT * FROM todos WHERE todolists_id = $1 AND username = $2 ORDER BY done, lower(title)`
with `todoList.id` and `this.username`. -/
def sortedTodos (username : String) (todoList : TodoList) (s : Store) :
    Except JsError (List Todo) :=
  (selectTodos orderByDoneLowerTitle
    [.col .todolists_id, .eq, .param 1, .and, .col .username, .eq, .param 2]
    [todoList.id.toSql, .text username] s).map (fun result => result.rows)

/-- Source: `loadTodoList(todoListId)`. Statements:
`SELECT * FROM todolists WHERE id = $1 AND username = $2` and
`SELECT * FROM todos WHERE todolists_id = $1 AND username = $2`; `undefined`
(`none`) when the first returns no row, else its first row with `todos` set to
the rows of the second. -/
def loadTodoList (username : String) (todoListId : Int) (s : Store) :
    Except JsError (Option TodoList) :=
  match selectTodoLists id [.col .id, .eq, .param 1, .and, .col .username, .eq, .param 2]
        [.int todoListId, .text username] s,
      selectTodos id [.col .todolists_id, .eq, .param 1, .and, .col .username, .eq, .param 2]
        [.int todoListId, .text username] s with
  | .ok resultTodoList, .ok resultTodos =>
    match resultTodoList.rows with
    | [] => .ok none
    | todoList :: _ =>
      .ok (some { id := .number todoList.id, title := todoList.title,
                  username := todoList.username, todos := resultTodos.rows })
  | .error e, _ => .error e
  | _, .error e => .error e

/-- Source: `loadTodo(todoListId, todoId)`. Statement:
`SELECT * FROM  todos WHERE todolists_id = $1 AND id = $2 AND username = $3`;
the result is `result.rows[0]`. -/
def loadTodo (username : String) (todoListId todoId : Int) (s : Store) :
    Except JsError (Option Todo) :=
  (selectTodos id
    [.col .todolists_id, .eq, .param 1, .and, .col .id, .eq, .param 2, .and,
      .col .username, .eq, .param 3]
    [.int todoListId, .int todoId, .text username] s).map (fun result => result.rows.head?)

/-- Source: `toggleDoneTodo(todoListId, todoId)`. Statement:
`UPDATE todos SET done = NOT done WHERE todolists_id = $1 AND id = $2 AND username = $3`;
the result is `result.rowCount > 0`. -/
def toggleDoneTodo (username : String) (todoListId todoId : Int) (s : Store) :
    Except JsError Bool × Store :=
  let r := updateTodos (fun t => { t with done := !t.done })
    [.col .todolists_id, .eq, .param 1, .and, .col .id, .eq, .param 2, .and,
      .col .username, .eq, .param 3]
    [.int todoListId, .int todoId, .text username] s
  (r.1.map (fun result => decide (result.rowCount > 0)), r.2)

/-- Source: `deleteTodo(todoListId, todoId)`. Statement:
`DELETE FROM todos WHERE todolists_id = $1 AND id = $2 AND username = $3`. -/
def deleteTodo (username : String) (todoListId todoId : Int) (s : Store) :
    Except JsError Bool × Store :=
  let r := deleteTodos
    [.col .todolists_id, .eq, .param 1, .and, .col .id, .eq, .param 2, .and,
      .col .username, .eq, .param 3]
    [.int todoListId, .int todoId, .text username] s
  (r.1.map (fun result => decide (result.rowCount > 0)), r.2)

/-- Source: `completeAllTodos(todoListId)`. Statement, token by token:
`UPDATE todos SET done = true WHERE todolists_id = $1 AND NOT AND username = $2 done`. -/
def completeAllTodos (username : String) (todoListId : Int) (s : Store) :
    Except JsError Bool × Store :=
  let r := updateTodos (fun t => { t with done := true })
    [.col .todolists_id, .eq, .param 1, .and, .not, .and, .col .username, .eq, .param 2,
      .col .done]
    [.int todoListId, .text username] s
  (r.1.map (fun result => decide (result.rowCount > 0)), r.2)

/-- Source: `createTodo(todoListId, title)`. Statement:
`INSERT INTO todos (title, todolists_id, username) VALUES ($1, $2, $3)` with
`title`, `todoListId`, `this.username`. -/
def createTodo (username : String) (todoListId : Int) (title : String) (s : Store) :
    Except JsError Bool × Store :=
  let r := insertTodo title todoListId username s
  (r.1.map (fun result => decide (result.rowCount > 0)), r.2)

/-- Source: `deleteTodoList(todoListId)`. Statement:
`DELETE FROM todolists WHERE id = $1 AND username = $2`. -/
def deleteTodoList (username : String) (todoListId : Int) (s : Store) :
    Except JsError Bool × Store :=
  let r := deleteTodoLists [.col .id, .eq, .param 1, .and, .col .username, .eq, .param 2]
    [.int todoListId, .text username] s
  (r.1.map (fun result => decide (result.rowCount > 0)), r.2)

/-- Source: `setTodoListTitle(todoListId, title)`. Statement:
`UPDATE todolists SET title = $1 WHERE id = $2 AND username = $3` with `title`,
`todoListId`, `this.username`. -/
def setTodoListTitle (username : String) (todoListId : Int) (title : String) (s : Store) :
    Except JsError Bool × Store :=
  let r := updateTodoListTitle title
    [.col .id, .eq, .param 2, .and, .col .username, .eq, .param 3]
    [.text title, .int todoListId, .text username] s
  (r.1.map (fun result => decide (result.rowCount > 0)), r.2)

/-- Source: `existsTodoListTitle(title)`. Statement:
`SELECT null FROM todolists WHERE title = $1 AND username = $2`; only the row
count of the result is read. -/
def existsTodoListTitle (username : String) (title : String) (s : Store) :
    Except JsError Bool :=
  (selectTodoLists id [.col .title, .eq, .param 1, .and, .col .username, .eq, .param 2]
    [.text title, .text username] s).map (fun result => decide (result.rowCount > 0))

/-- Source: `createTodoList(title)`. Statement:
`INSERT INTO todolists (title, username) VALUES ($1, $2)`, inside the
`try`/`catch`. -/
def createTodoList (username : String) (title : String) (s : Store) :
    Except JsError Bool × Store :=
  let r := insertTodoList title username s
  (createTodoList.ofOutcome r.1, r.2)

/-- Source: `authenticateUser(password, username)`. Statement:
`SELECT password FROM users WHERE username = $1`; an error of the lookup is
raised to the caller. -/
def authenticateUser (compare : String → String → Bool) (password username : String)
    (s : Store) : Except JsError Bool :=
  match selectUsers [.col .username, .eq, .param 1] [.text username] s with
  | .error e => .error e
  | .ok result => authenticateUser.ofResult compare password result

/-! ## The operations on todo lists and todos, as one type -/

/-- A call of one of the twelve methods that read or write todo lists or todos,
with its arguments. -/
inductive Op where
  | sortedTodoLists
  | sortedTodos (todoList : TodoList)
  | loadTodoList (todoListId : Int)
  | loadTodo (todoListId todoId : Int)
  | toggleDoneTodo (todoListId todoId : Int)
  | deleteTodo (todoListId todoId : Int)
  | completeAllTodos (todoListId : Int)
  | createTodo (todoListId : Int) (title : String)
  | deleteTodoList (todoListId : Int)
  | setTodoListTitle (todoListId : Int) (title : String)
  | existsTodoListTitle (title : String)
  | createTodoList (title : String)
deriving Repr

/-- What a method returns. -/
inductive Value where
  | bool (b : Bool)
  | todoLists (r : Option (List TodoList))
  | todos (r : List Todo)
  | todoList (r : Option TodoList)
  | todo (r : Option Todo)
deriving DecidableEq, Repr

/-- The owners of a todo list object and of the todos set on it. -/
def TodoList.owners (todoList : TodoList) : List String :=
  todoList.username :: todoList.todos.map (fun t => t.username)

/-- The owners of all the rows in a returned value. -/
def Value.owners : Value → List String
  | .bool _ => []
  | .todoLists none => []
  | .todoLists (some lists) => lists.flatMap TodoList.owners
  | .todos rows => rows.map (fun t => t.username)
  | .todoList none => []
  | .todoList (some l) => TodoList.owners l
  | .todo none => []
  | .todo (some t) => [t.username]

/-- The call of a method by a `PgPersistence` constructed for `username`: its
outcome and the store it leaves. -/
def run (todolist_id : Todo → JsVal) (username : String) (op : Op) (s : Store) :
    Except JsError Value × Store :=
  match op with
  | .sortedTodoLists => ((sortedTodoLists todolist_id username s).map Value.todoLists, s)
  | .sortedTodos todoList => ((sortedTodos username todoList s).map Value.todos, s)
  | .loadTodoList todoListId => ((loadTodoList username todoListId s).map Value.todoList, s)
  | .loadTodo todoListId todoId => ((loadTodo username todoListId todoId s).map Value.todo, s)
  | .toggleDoneTodo todoListId todoId =>
    let r := toggleDoneTodo username todoListId todoId s
    (r.1.map Value.bool, r.2)
  | .deleteTodo todoListId todoId =>
    let r := deleteTodo username todoListId todoId s
    (r.1.map Value.bool, r.2)
  | .completeAllTodos todoListId =>
    let r := completeAllTodos username todoListId s
    (r.1.map Value.bool, r.2)
  | .createTodo todoListId title =>
    let r := createTodo username todoListId title s
    (r.1.map Value.bool, r.2)
  | .deleteTodoList todoListId =>
    let r := deleteTodoList username todoListId s
    (r.1.map Value.bool, r.2)
  | .setTodoListTitle todoListId title =>
    let r := setTodoListTitle username todoListId title s
    (r.1.map Value.bool, r.2)
  | .existsTodoListTitle title => ((existsTodoListTitle username title s).map Value.bool, s)
  | .createTodoList title =>
    let r := createTodoList username title s
    (r.1.map Value.bool, r.2)

/-- Two stores hold the same rows of `username`, in the same order, in
`todolists` and in `todos`. -/
def sameRowsOf (username : String) (s1 s2 : Store) : Prop :=
  s1.todolists.filter (fun r => decide (r.username = username)) =
      s2.todolists.filter (fun r => decide (r.username = username)) ∧
    s1.todos.filter (fun t => decide (t.username = username)) =
      s2.todos.filter (fun t => decide (t.username = username))

/-- The rows of a store that `username` does not own leave `s` unchanged in `s2`:
the same rows of other users in `users`, `todolists` and `todos`, in the same
order. -/
def othersUntouched (username : String) (s s2 : Store) : Prop :=
  s2.users = s.users ∧
    s2.todolists.filter (fun r => !decide (r.username = username)) =
      s.todolists.filter (fun r => !decide (r.username = username)) ∧
    s2.todos.filter (fun t => !decide (t.username = username)) =
      s.todos.filter (fun t => !decide (t.username = username))

/-! ## The scenario of the specification: alice's lists -/

/-- Alice's list Chores, with no todos. -/
def aliceChores : TodoListRow := { id := 2, title := "Chores", username := "alice" }

/-- Alice's list Groceries, with two todos. -/
def aliceGroceries : TodoListRow := { id := 1, title := "Groceries", username := "alice" }

/-- The done todo of Groceries. -/
def aliceMilk : Todo :=
  { id := 1, title := "Milk", done := true, todolists_id := 1, username := "alice" }

/-- The undone todo of Groceries. -/
def aliceEggs : Todo :=
  { id := 2, title := "Eggs", done := false, todolists_id := 1, username := "alice" }

/-- A list of bob, with one todo. -/
def bobWork : TodoListRow := { id := 3, title := "Work", username := "bob" }

/-- The todo of bob. -/
def bobReport : Todo :=
  { id := 3, title := "Report", done := false, todolists_id := 3, username := "bob" }

/-- A store with alice's two lists and their todos. -/
def aliceStore : Store :=
  { users := [{ username := "alice", password := "hash-of-alice" }],
    todolists := [aliceGroceries, aliceChores],
    todos := [aliceMilk, aliceEggs],
    todolistsSeq := 3,
    todosSeq := 3 }

/-- The store of alice with bob's rows added between hers. -/
def sharedStore : Store :=
  { users := [{ username := "alice", password := "hash-of-alice" },
              { username := "bob", password := "hash-of-bob" }],
    todolists := [bobWork, aliceGroceries, aliceChores],
    todos := [aliceMilk, bobReport, aliceEggs],
    todolistsSeq := 4,
    todosSeq := 4 }

/-- Groceries once its only todo is done. -/
def groceriesDone : TodoList :=
  { id := .number 1, title := "Groceries", username := "alice", todos := [aliceMilk] }

/-- A list without todos, titled in lower case. -/
def choresEmpty : TodoList :=
  { id := .number 2, title := "chores", username := "alice", todos := [] }

/-- A list without todos. -/
def homeworkEmpty : TodoList :=
  { id := .number 4, title := "Homework", username := "alice", todos := [] }

/-- A list with one todo that is not done. -/
def homeworkOpen : TodoList :=
  { id := .number 4, title := "homework", username := "alice", todos := [aliceEggs] }

/-- A comparison that accepts the password `secret` for the hash `hash-of-alice`
and nothing else. -/
def acceptsSecret (password hash : String) : Bool :=
  password == "secret" && hash == "hash-of-alice"

/-- The property `todolist_id` of a fetched todo when it names the column that
holds the reference to the list. -/
def listReference (t : Todo) : JsVal := .number t.todolists_id

/-- The property `todolist_id` of a fetched todo when the rows have no property
of that name. -/
def noProperty (_ : Todo) : JsVal := .undefined

/-! ## Predicates used to state the properties -/

/-- The todos `WHERE todolists_id = $1 AND id = $2 AND username = $3` is meant to
select. -/
def isTodo (username : String) (todoListId todoId : Int) (t : Todo) : Bool :=
  decide (t.todolists_id = todoListId) && decide (t.id = todoId) && decide (t.username = username)

/-- The part of a store a user owns: her rows of `todolists` and `todos`, and
nothing else. -/
def scope (username : String) (s : Store) : Store :=
  { users := [],
    todolists := s.todolists.filter (fun r => decide (r.username = username)),
    todos := s.todos.filter (fun t => decide (t.username = username)),
    todolistsSeq := 0,
    todosSeq := 0 }

/-- A `WHERE` clause is scoped to `username` when every row it selects is owned
by `username`. -/
def Scoped {α : Type} (username : String) (cols : List Col) (col : α → Col → SqlVal)
    (owner : α → String) (tokens : List Tok) (params : List SqlVal) : Prop :=
  ∀ c, prepare cols tokens params = .ok c →
    ∀ x, Cond.holds (col x) params c = true → owner x = username

/-! ## Lemmas on `_partitionTodoLists` -/

theorem foldl_partitionStep (todoLists : List TodoList) (acc : List TodoList × List TodoList) :
    todoLists.foldl partitionStep acc =
      (acc.1 ++ todoLists.filter (fun t => !isDoneTodoList t),
        acc.2 ++ todoLists.filter isDoneTodoList) := by
  induction todoLists generalizing acc with
  | nil => simp
  | cons t ts ih =>
    rw [List.foldl_cons, ih]
    by_cases h : isDoneTodoList t = true <;> simp [partitionStep, h]

theorem partition_eq_filter (todoLists : List TodoList) :
    _partitionTodoLists todoLists =
      todoLists.filter (fun t => !isDoneTodoList t) ++ todoLists.filter isDoneTodoList := by
  simp [_partitionTodoLists, foldl_partitionStep]

theorem filter_undone_partition (todoLists : List TodoList) :
    (_partitionTodoLists todoLists).filter (fun t => !isDoneTodoList t) =
      todoLists.filter (fun t => !isDoneTodoList t) := by
  rw [partition_eq_filter, List.filter_append, List.filter_filter, List.filter_filter]
  simp

theorem filter_done_partition (todoLists : List TodoList) :
    (_partitionTodoLists todoLists).filter isDoneTodoList =
      todoLists.filter isDoneTodoList := by
  rw [partition_eq_filter, List.filter_append, List.filter_filter, List.filter_filter]
  simp

/-! ## Claims on the JavaScript helpers -/

/-- C1: `isDoneTodoList` returns true exactly when the list's todos are non-empty
and every one of them has `done = true`; it returns false on a list without
todos. -/
theorem isDoneTodoList_iff (todoList : TodoList) :
    (isDoneTodoList todoList = true ↔
      todoList.todos ≠ [] ∧ ∀ todo ∈ todoList.todos, todo.done = true) ∧
    (todoList.todos = [] → isDoneTodoList todoList = false) := by
  constructor
  · simp [isDoneTodoList, List.length_pos]
  · intro h
    simp [isDoneTodoList, h]

/-- C3: in the result of `_partitionTodoLists`, a list that is not done stands at
a smaller index than any list that is done. -/
theorem partition_undone_before_done (todoLists : List TodoList) (i j : Nat) (a b : TodoList)
    (hi : (_partitionTodoLists todoLists)[i]? = some a)
    (hj : (_partitionTodoLists todoLists)[j]? = some b)
    (ha : isDoneTodoList a = false) (hb : isDoneTodoList b = true) : i < j := by
  rw [partition_eq_filter] at hi hj
  set undone := todoLists.filter (fun t => !isDoneTodoList t) with hundone
  set done := todoLists.filter isDoneTodoList with hdone
  have hilt : i < undone.length := by
    by_contra hge
    rw [List.getElem?_append_right (Nat.le_of_not_lt hge)] at hi
    have hmem : a ∈ done := List.getElem?_mem hi
    have := (List.mem_filter.mp hmem).2
    simp [ha] at this
  have hjge : undone.length ≤ j := by
    by_contra hlt
    rw [List.getElem?_append_left (Nat.lt_of_not_le hlt)] at hj
    have hmem : b ∈ undone := List.getElem?_mem hj
    have := (List.mem_filter.mp hmem).2
    simp [hb] at this
  omega

/-- C4: on todo lists in ascending case-insensitive title order,
`_partitionTodoLists` returns its undone lists in that order and its done lists
in that order, and each of the two groups is the group of the input in the
input's order. -/
theorem partition_preserves_title_order (todoLists : List TodoList)
    (hsorted : todoLists.Pairwise titleLe) :
    ((_partitionTodoLists todoLists).filter (fun t => !isDoneTodoList t)).Pairwise titleLe ∧
    ((_partitionTodoLists todoLists).filter isDoneTodoList).Pairwise titleLe ∧
    (_partitionTodoLists todoLists).filter (fun t => !isDoneTodoList t) =
      todoLists.filter (fun t => !isDoneTodoList t) ∧
    (_partitionTodoLists todoLists).filter isDoneTodoList =
      todoLists.filter isDoneTodoList := by
  rw [filter_undone_partition, filter_done_partition]
  exact ⟨hsorted.filter _, hsorted.filter _, rfl, rfl⟩

/-- The order inside each group does not depend on how titles are compared: for
any relation that holds between the lists of the input in their order, it holds
inside the undone lists and inside the done lists of the result. -/
theorem partition_preserves_order (R : TodoList → TodoList → Prop) (todoLists : List TodoList)
    (hsorted : todoLists.Pairwise R) :
    ((_partitionTodoLists todoLists).filter (fun t => !isDoneTodoList t)).Pairwise R ∧
    ((_partitionTodoLists todoLists).filter isDoneTodoList).Pairwise R := by
  rw [filter_undone_partition, filter_done_partition]
  exact ⟨hsorted.filter _, hsorted.filter _⟩

/-- A witness of C3: Groceries with its one todo done comes after the empty
Homework, which the query returns after it. -/
theorem partition_undone_before_done_witness :
    (_partitionTodoLists [groceriesDone, homeworkEmpty])[0]? = some homeworkEmpty ∧
    (_partitionTodoLists [groceriesDone, homeworkEmpty])[1]? = some groceriesDone ∧
    isDoneTodoList homeworkEmpty = false ∧ isDoneTodoList groceriesDone = true ∧ 0 < 1 :=
  ⟨by decide, by decide, by decide, by decide,
    partition_undone_before_done [groceriesDone, homeworkEmpty] 0 1 homeworkEmpty groceriesDone
      (by decide) (by decide) (by decide) (by decide)⟩

/-- A witness of C4: three lists in title order, the middle one done. -/
theorem partition_preserves_title_order_witness :
    [choresEmpty, groceriesDone, homeworkOpen].Pairwise titleLe ∧
    ((_partitionTodoLists [choresEmpty, groceriesDone, homeworkOpen]).filter
        (fun t => !isDoneTodoList t)).Pairwise titleLe ∧
    ((_partitionTodoLists [choresEmpty, groceriesDone, homeworkOpen]).filter
        isDoneTodoList).Pairwise titleLe ∧
    (_partitionTodoLists [choresEmpty, groceriesDone, homeworkOpen]).filter
        (fun t => !isDoneTodoList t) =
      [choresEmpty, groceriesDone, homeworkOpen].filter (fun t => !isDoneTodoList t) ∧
    (_partitionTodoLists [choresEmpty, groceriesDone, homeworkOpen]).filter isDoneTodoList =
      [choresEmpty, groceriesDone, homeworkOpen].filter isDoneTodoList :=
  ⟨by decide,
    partition_preserves_title_order [choresEmpty, groceriesDone, homeworkOpen] (by decide)⟩

/-! ## `sortedTodoLists` on the fetched rows -/

/-- C2: on alice's rows (Chores without todos, Groceries with two), with the
property `todolist_id` of a todo holding its list reference, `sortedTodoLists`
gives Chores both todos of Groceries, although no fetched todo refers to the
identifier 2 of Chores. -/
theorem sortedTodoLists_attaches_foreign_todos :
    sortedTodoLists.ofRows listReference (some [aliceChores, aliceGroceries])
        (some [aliceMilk, aliceEggs]) =
      some [{ id := .number 1, title := "Chores", username := "alice",
              todos := [aliceMilk, aliceEggs] },
            { id := .number 1, title := "Groceries", username := "alice",
              todos := [aliceMilk, aliceEggs] }] ∧
    [aliceMilk, aliceEggs].filter (fun t => decide (listReference t = .number aliceChores.id)) =
      [] := by
  constructor <;> decide

/-- The same rows when the fetched todos have no property `todolist_id`: no list
gets a todo and every identifier becomes `undefined`. -/
theorem sortedTodoLists_without_property :
    sortedTodoLists.ofRows noProperty (some [aliceChores, aliceGroceries])
        (some [aliceMilk, aliceEggs]) =
      some [{ id := .undefined, title := "Chores", username := "alice", todos := [] },
            { id := .undefined, title := "Groceries", username := "alice", todos := [] }] := by
  decide

/-- C10: on alice's rows the (identifier, title) pairs `sortedTodoLists` returns
are (1, Chores) and (1, Groceries), which is no permutation of the fetched
(2, Chores) and (1, Groceries). -/
theorem sortedTodoLists_changes_identifiers :
    (sortedTodoLists.ofRows listReference (some [aliceChores, aliceGroceries])
        (some [aliceMilk, aliceEggs])).map (fun lists => lists.map (fun l => (l.id, l.title))) =
      some [(.number 1, "Chores"), (.number 1, "Groceries")] ∧
    ¬ List.Perm [(JsVal.number 1, "Chores"), (JsVal.number 1, "Groceries")]
        ([aliceChores, aliceGroceries].map (fun r => (JsVal.number r.id, r.title))) := by
  constructor <;> decide

/-! ## `createTodoList` and `authenticateUser` on the outcome of their query -/

theorem regexTest_iff_occurs (pattern text : List Char) :
    regexTest pattern text = true ↔ pattern <:+: text := by
  induction text with
  | nil => simp [regexTest]
  | cons c cs ih =>
    simp only [regexTest, Bool.or_eq_true, ih, List.isPrefixOf_iff_prefix,
      List.infix_cons_iff]

/-- C5: `createTodoList` runs its `try`/`catch` on the outcome of the insert; when
the query fails with an error whose text contains "duplicate key value violates
unique constraint" it returns false, when it fails with any other error it raises
that same error, and when it succeeds it returns a boolean that is true exactly
when the row count is positive. -/
theorem createTodoList_outcome (username title : String) (s : Store) {ρ : Type}
    (outcome : Except JsError (QueryResult ρ)) :
    (createTodoList username title s).1 =
      createTodoList.ofOutcome (insertTodoList title username s).1 ∧
    (∀ error, outcome = .error error →
      "duplicate key value violates unique constraint".toList <:+: error.toString.toList →
      createTodoList.ofOutcome outcome = .ok false) ∧
    (∀ error, outcome = .error error →
      ¬ "duplicate key value violates unique constraint".toList <:+: error.toString.toList →
      createTodoList.ofOutcome outcome = .error error) ∧
    (∀ result, outcome = .ok result →
      ∃ b, createTodoList.ofOutcome outcome = .ok b ∧ (b = true ↔ 0 < result.rowCount)) := by
  refine ⟨rfl, ?_, ?_, ?_⟩
  · intro error h hcontains
    have ht : isUniqueConstraintViolation error = true :=
      (regexTest_iff_occurs _ _).mpr hcontains
    simp [h, createTodoList.ofOutcome, ht]
  · intro error h hcontains
    have ht : isUniqueConstraintViolation error = false := by
      rw [← Bool.not_eq_true]
      exact fun hc => hcontains ((regexTest_iff_occurs _ _).mp hc)
    simp [h, createTodoList.ofOutcome, ht]
  · intro result h
    exact ⟨decide (result.rowCount > 0), by simp [h, createTodoList.ofOutcome], by simp⟩

/-- In the store, creating a list whose title the user already has returns false
and leaves the store as it was. -/
theorem createTodoList_duplicate (username title : String) (s : Store)
    (h : 1 ≤ titleCount title username s.todolists) :
    createTodoList username title s = (.ok false, s) := by
  have hv : isUniqueConstraintViolation uniqueViolation = true := by decide
  simp [createTodoList, insertTodoList, h, createTodoList.ofOutcome, hv]

/-- On a lookup result whose row count is the number of its rows, the code after
the lookup returns false when there is no row and otherwise the comparison of the
password with the stored hash of the first row; it never raises. -/
theorem ofResult_returns (compare : String → String → Bool) (password : String)
    (result : QueryResult UserRow) (hcount : result.rowCount = result.rows.length) :
    (result.rows = [] → authenticateUser.ofResult compare password result = .ok false) ∧
    (∀ row rest, result.rows = row :: rest →
      authenticateUser.ofResult compare password result = .ok (compare password row.password)) ∧
    (∃ b : Bool, authenticateUser.ofResult compare password result = .ok b) := by
  refine ⟨?_, ?_, ?_⟩
  · intro h
    simp [authenticateUser.ofResult, hcount, h]
  · intro row rest h
    simp [authenticateUser.ofResult, hcount, h]
  · cases hrows : result.rows with
    | nil => exact ⟨false, by simp [authenticateUser.ofResult, hcount, hrows]⟩
    | cons row rest =>
      exact ⟨compare password row.password, by
        simp [authenticateUser.ofResult, hcount, hrows]⟩

/-- The rows `WHERE username = $1` selects in `users`. -/
theorem holds_user (r : UserRow) (username : String) :
    Cond.holds r.col [.text username] (.colEqParam .username 1) =
      decide (r.username = username) := by
  simp [Cond.holds, Cond.eval, UserRow.col]

/-- The lookup of `authenticateUser` succeeds on every store, with the rows of
`users` that have this username, in the order of the table, and their number. -/
theorem selectUsers_username (username : String) (s : Store) :
    selectUsers [.col .username, .eq, .param 1] [.text username] s =
      .ok { rows := s.users.filter (fun r => decide (r.username = username)),
            rowCount := (s.users.filter (fun r => decide (r.username = username))).length } := by
  have hp : prepare usersCols [.col .username, .eq, .param 1] [.text username] =
      .ok (.colEqParam .username 1) := rfl
  simp only [selectUsers, hp, holds_user]

/-- In the store, `authenticateUser` never raises: it returns false when no row of
`users` has this username, else the comparison with the hash of the first such
row. -/
theorem authenticateUser_store (compare : String → String → Bool) (password username : String)
    (s : Store) :
    authenticateUser compare password username s =
      .ok (match s.users.filter (fun r => decide (r.username = username)) with
        | [] => false
        | row :: _ => compare password row.password) := by
  simp only [authenticateUser, selectUsers_username, authenticateUser.ofResult]
  cases s.users.filter (fun r => decide (r.username = username)) with
  | nil => rfl
  | cons row rest => simp

/-- C6: for every password, username and store, `authenticateUser` looks the
username up and runs the code after the lookup on the result; it returns false
without raising when no row of `users` has this username, and otherwise exactly
the comparison of the password with the stored hash of the first returned row.
The same holds of the code after the lookup on every result whose row count is
the number of its rows. The value is a boolean in every case. -/
theorem authenticateUser_returns (compare : String → String → Bool)
    (password username : String) (s : Store) :
    (∃ result, selectUsers [.col .username, .eq, .param 1] [.text username] s = .ok result ∧
      result.rows = s.users.filter (fun r => decide (r.username = username)) ∧
      result.rowCount = result.rows.length ∧
      authenticateUser compare password username s =
        authenticateUser.ofResult compare password result) ∧
    (s.users.filter (fun r => decide (r.username = username)) = [] →
      authenticateUser compare password username s = .ok false) ∧
    (∀ row rest, s.users.filter (fun r => decide (r.username = username)) = row :: rest →
      authenticateUser compare password username s = .ok (compare password row.password)) ∧
    (∃ b : Bool, authenticateUser compare password username s = .ok b) ∧
    (∀ result : QueryResult UserRow, result.rowCount = result.rows.length →
      (result.rows = [] → authenticateUser.ofResult compare password result = .ok false) ∧
      (∀ row rest, result.rows = row :: rest →
        authenticateUser.ofResult compare password result =
          .ok (compare password row.password)) ∧
      (∃ b : Bool, authenticateUser.ofResult compare password result = .ok b)) := by
  refine ⟨⟨_, selectUsers_username username s, rfl, rfl, ?_⟩, ?_, ?_, ?_, ?_⟩
  · simp only [authenticateUser, selectUsers_username]
  · intro h
    rw [authenticateUser_store, h]
  · intro row rest h
    rw [authenticateUser_store, h]
  · exact ⟨_, authenticateUser_store compare password username s⟩
  · intro result hcount
    exact ofResult_returns compare password result hcount

/-- A witness of C6 in the store alice shares with bob: her password is accepted,
a wrong password is refused, and so is a username that has no row. -/
theorem authenticateUser_returns_witness :
    authenticateUser acceptsSecret "secret" "alice" sharedStore = .ok true ∧
    authenticateUser acceptsSecret "wrong" "alice" sharedStore = .ok false ∧
    authenticateUser acceptsSecret "secret" "carol" sharedStore = .ok false :=
  ⟨((authenticateUser_returns acceptsSecret "secret" "alice" sharedStore).2.2.1
      { username := "alice", password := "hash-of-alice" } [] (by decide)).trans rfl,
    ((authenticateUser_returns acceptsSecret "wrong" "alice" sharedStore).2.2.1
      { username := "alice", password := "hash-of-alice" } [] (by decide)).trans rfl,
    (authenticateUser_returns acceptsSecret "secret" "carol" sharedStore).2.1 (by decide)⟩

/-! ## Lists of rows and their owners -/

section lists
variable {α : Type} (owner : α → String) (u : String)

theorem filter_scoped (p : α → Bool) (hp : ∀ x, p x = true → owner x = u) (l : List α) :
    l.filter p = (l.filter (fun x => decide (owner x = u))).filter p := by
  rw [List.filter_filter]
  apply List.filter_congr
  intro x _
  cases h : p x
  · simp
  · simp [hp x h]

theorem countP_scoped (p : α → Bool) (hp : ∀ x, p x = true → owner x = u) (l : List α) :
    l.countP p = (l.filter (fun x => decide (owner x = u))).countP p := by
  rw [List.countP_eq_length_filter, List.countP_eq_length_filter, ← filter_scoped owner u p hp]

theorem any_scoped (p : α → Bool) (hp : ∀ x, p x = true → owner x = u) (l : List α) :
    l.any p = (l.filter (fun x => decide (owner x = u))).any p := by
  induction l with
  | nil => rfl
  | cons x xs ih =>
    by_cases hx : owner x = u
    · simp [List.filter_cons, hx, ih]
    · have : p x = false := by
        cases h : p x
        · rfl
        · exact absurd (hp x h) hx
      simp [List.filter_cons, hx, ih, this]

theorem map_filter_owned (g : α → α) (hg : ∀ x, owner (g x) = owner x) (l : List α) :
    (l.map g).filter (fun x => decide (owner x = u)) =
      (l.filter (fun x => decide (owner x = u))).map g := by
  induction l with
  | nil => rfl
  | cons x xs ih => by_cases hx : owner x = u <;> simp [List.filter_cons, hg, hx, ih]

theorem map_filter_others (g : α → α) (hg : ∀ x, owner (g x) = owner x)
    (hfix : ∀ x, owner x ≠ u → g x = x) (l : List α) :
    (l.map g).filter (fun x => !decide (owner x = u)) =
      l.filter (fun x => !decide (owner x = u)) := by
  induction l with
  | nil => rfl
  | cons x xs ih =>
    by_cases hx : owner x = u
    · simp [List.filter_cons, hg, hx, ih]
    · simp [List.filter_cons, hg, hx, ih, hfix x hx]

theorem filter_not_filter_others (p : α → Bool) (hp : ∀ x, p x = true → owner x = u)
    (l : List α) :
    (l.filter (fun x => !p x)).filter (fun x => !decide (owner x = u)) =
      l.filter (fun x => !decide (owner x = u)) := by
  rw [List.filter_filter]
  apply List.filter_congr
  intro x _
  by_cases hx : owner x = u
  · simp [hx]
  · have : p x = false := by
      cases h : p x
      · rfl
      · exact absurd (hp x h) hx
    simp [hx, this]

end lists

@[simp] theorem sqlAnd_some (a b : Bool) : sqlAnd (some a) (some b) = some (a && b) := by
  cases a <;> cases b <;> rfl

theorem sqlAnd_none_left (b : Option Bool) : sqlAnd none b ≠ some true := by
  rcases b with _ | _ | _ <;> simp [sqlAnd]

/-! ### Statements whose `WHERE` clause is scoped -/

theorem selectTodos_scope (u : String) (order : List Todo → List Todo) (tokens : List Tok)
    (params : List SqlVal) (h : Scoped u todosCols Todo.col (fun t => t.username) tokens params)
    (s : Store) :
    selectTodos order tokens params s = selectTodos order tokens params (scope u s) := by
  unfold selectTodos
  cases hp : prepare todosCols tokens params with
  | error e => rfl
  | ok c =>
    simp only [scope]
    rw [← filter_scoped (fun t : Todo => t.username) u _ (h c hp)]

theorem selectTodoLists_scope (u : String) (order : List TodoListRow → List TodoListRow)
    (tokens : List Tok) (params : List SqlVal)
    (h : Scoped u todolistsCols TodoListRow.col (fun r => r.username) tokens params)
    (s : Store) :
    selectTodoLists order tokens params s = selectTodoLists order tokens params (scope u s) := by
  unfold selectTodoLists
  cases hp : prepare todolistsCols tokens params with
  | error e => rfl
  | ok c =>
    simp only [scope]
    rw [← filter_scoped (fun r : TodoListRow => r.username) u _ (h c hp)]

theorem updateTodos_scope (u : String) (set : Todo → Todo) (tokens : List Tok)
    (params : List SqlVal) (h : Scoped u todosCols Todo.col (fun t => t.username) tokens params)
    (s : Store) :
    (updateTodos set tokens params s).1 = (updateTodos set tokens params (scope u s)).1 := by
  unfold updateTodos
  cases hp : prepare todosCols tokens params with
  | error e => rfl
  | ok c =>
    simp only [scope]
    rw [← countP_scoped (fun t : Todo => t.username) u _ (h c hp)]

theorem updateTodos_others (u : String) (set : Todo → Todo)
    (hset : ∀ t, (set t).username = t.username) (tokens : List Tok)
    (params : List SqlVal) (h : Scoped u todosCols Todo.col (fun t => t.username) tokens params)
    (s : Store) :
    othersUntouched u s (updateTodos set tokens params s).2 := by
  unfold updateTodos
  cases hp : prepare todosCols tokens params with
  | error e => exact ⟨rfl, rfl, rfl⟩
  | ok c =>
    refine ⟨rfl, rfl, ?_⟩
    apply map_filter_others (fun t : Todo => t.username) u
    · intro t
      split
      · exact hset t
      · rfl
    · intro t ht
      have : Cond.holds t.col params c = false := by
        cases hc : Cond.holds t.col params c
        · rfl
        · exact absurd (h c hp t hc) ht
      simp [this]

theorem deleteTodos_scope (u : String) (tokens : List Tok)
    (params : List SqlVal) (h : Scoped u todosCols Todo.col (fun t => t.username) tokens params)
    (s : Store) :
    (deleteTodos tokens params s).1 = (deleteTodos tokens params (scope u s)).1 := by
  unfold deleteTodos
  cases hp : prepare todosCols tokens params with
  | error e => rfl
  | ok c =>
    simp only [scope]
    rw [← countP_scoped (fun t : Todo => t.username) u _ (h c hp)]

theorem deleteTodos_others (u : String) (tokens : List Tok)
    (params : List SqlVal) (h : Scoped u todosCols Todo.col (fun t => t.username) tokens params)
    (s : Store) :
    othersUntouched u s (deleteTodos tokens params s).2 := by
  unfold deleteTodos
  cases hp : prepare todosCols tokens params with
  | error e => exact ⟨rfl, rfl, rfl⟩
  | ok c =>
    exact ⟨rfl, rfl, filter_not_filter_others (fun t : Todo => t.username) u _ (h c hp) _⟩

theorem deleteTodoLists_scope (u : String) (tokens : List Tok) (params : List SqlVal)
    (h : Scoped u todolistsCols TodoListRow.col (fun r => r.username) tokens params)
    (s : Store) :
    (deleteTodoLists tokens params s).1 = (deleteTodoLists tokens params (scope u s)).1 := by
  unfold deleteTodoLists
  cases hp : prepare todolistsCols tokens params with
  | error e => rfl
  | ok c =>
    simp only [scope]
    rw [← countP_scoped (fun r : TodoListRow => r.username) u _ (h c hp)]

theorem deleteTodoLists_others (u : String) (tokens : List Tok) (params : List SqlVal)
    (h : Scoped u todolistsCols TodoListRow.col (fun r => r.username) tokens params)
    (s : Store) :
    othersUntouched u s (deleteTodoLists tokens params s).2 := by
  unfold deleteTodoLists
  cases hp : prepare todolistsCols tokens params with
  | error e => exact ⟨rfl, rfl, rfl⟩
  | ok c =>
    exact ⟨rfl, filter_not_filter_others (fun r : TodoListRow => r.username) u _ (h c hp) _, rfl⟩

theorem insertTodo_scope (u title : String) (l : Int) (s : Store) :
    (insertTodo title l u s).1 = (insertTodo title l u (scope u s)).1 := rfl

theorem insertTodo_others (u title : String) (l : Int) (s : Store) :
    othersUntouched u s (insertTodo title l u s).2 := by
  refine ⟨rfl, rfl, ?_⟩
  simp [insertTodo, List.filter_append]

theorem titleCount_scope (u title : String) (rows : List TodoListRow) :
    titleCount title u rows =
      titleCount title u (rows.filter (fun r => decide (r.username = u))) := by
  unfold titleCount
  apply countP_scoped (fun r : TodoListRow => r.username) u
  intro r hr
  simp at hr
  exact hr.2

theorem insertTodoList_scope (u title : String) (s : Store) :
    (insertTodoList title u s).1 = (insertTodoList title u (scope u s)).1 := by
  unfold insertTodoList
  simp only [scope]
  rw [← titleCount_scope]
  split <;> rfl

theorem insertTodoList_others (u title : String) (s : Store) :
    othersUntouched u s (insertTodoList title u s).2 := by
  unfold insertTodoList
  split
  · exact ⟨rfl, rfl, rfl⟩
  · refine ⟨rfl, ?_, rfl⟩
    simp [List.filter_append]

theorem any_and_const {α : Type} (p q : α → Bool) (b : Bool)
    (h : ∀ x, p x = true → q x = b) (l : List α) :
    l.any (fun x => p x && q x) = (l.any p && b) := by
  induction l with
  | nil => simp
  | cons x xs ih =>
    simp only [List.any_cons, ih]
    cases hp : p x
    · simp
    · simp [h x hp]

theorem updateTodoListTitle_scope (u title : String) (tokens : List Tok) (params : List SqlVal)
    (h : Scoped u todolistsCols TodoListRow.col (fun r => r.username) tokens params)
    (s : Store) :
    (updateTodoListTitle title tokens params s).1 =
      (updateTodoListTitle title tokens params (scope u s)).1 := by
  unfold updateTodoListTitle
  cases hp : prepare todolistsCols tokens params with
  | error e => rfl
  | ok c =>
    simp only [scope]
    have hcount : ∀ rows : List TodoListRow,
        titleCount title u (rows.map
          (fun r => if c.holds r.col params then { r with title := title } else r)) =
        titleCount title u ((rows.filter (fun r => decide (r.username = u))).map
          (fun r => if c.holds r.col params then { r with title := title } else r)) := by
      intro rows
      rw [titleCount_scope, map_filter_owned (fun r : TodoListRow => r.username) u]
      intro r
      split <;> rfl
    rw [any_and_const (fun r : TodoListRow => c.holds r.col params) _
        (decide (2 ≤ titleCount title u (s.todolists.map
          (fun r => if c.holds r.col params then { r with title := title } else r))))
        (fun r hr => by simp only [h c hp r hr]),
      any_and_const (fun r : TodoListRow => c.holds r.col params) _
        (decide (2 ≤ titleCount title u
          ((s.todolists.filter (fun r => decide (r.username = u))).map
            (fun r => if c.holds r.col params then { r with title := title } else r))))
        (fun r hr => by simp only [h c hp r hr]),
      ← hcount, ← any_scoped (fun r : TodoListRow => r.username) u _ (h c hp),
      ← countP_scoped (fun r : TodoListRow => r.username) u _ (h c hp)]
    split <;> rfl

theorem updateTodoListTitle_others (u title : String) (tokens : List Tok)
    (params : List SqlVal)
    (h : Scoped u todolistsCols TodoListRow.col (fun r => r.username) tokens params)
    (s : Store) :
    othersUntouched u s (updateTodoListTitle title tokens params s).2 := by
  unfold updateTodoListTitle
  cases hp : prepare todolistsCols tokens params with
  | error e => exact ⟨rfl, rfl, rfl⟩
  | ok c =>
    simp only
    split
    · exact ⟨rfl, rfl, rfl⟩
    · refine ⟨rfl, ?_, rfl⟩
      apply map_filter_others (fun r : TodoListRow => r.username) u
      · intro r
        split <;> rfl
      · intro r hr
        have : Cond.holds r.col params c = false := by
          cases hc : Cond.holds r.col params c
          · rfl
          · exact absurd (h c hp r hc) hr
        simp [this]

/-! ### The `WHERE` clauses of the source are scoped -/

theorem scoped_todos_username (u : String) :
    Scoped u todosCols Todo.col (fun t => t.username)
      [.col .username, .eq, .param 1] [.text u] := by
  intro c hc t ht
  have hp : prepare todosCols [.col .username, .eq, .param 1] [.text u] =
      .ok (.colEqParam .username 1) := rfl
  rw [hp] at hc
  cases hc
  simpa [Cond.holds, Cond.eval, Todo.col] using ht

theorem scoped_todolists_username (u : String) :
    Scoped u todolistsCols TodoListRow.col (fun r => r.username)
      [.col .username, .eq, .param 1] [.text u] := by
  intro c hc r hr
  have hp : prepare todolistsCols [.col .username, .eq, .param 1] [.text u] =
      .ok (.colEqParam .username 1) := rfl
  rw [hp] at hc
  cases hc
  simpa [Cond.holds, Cond.eval, TodoListRow.col] using hr

theorem scoped_todos_list (u : String) (p : SqlVal) :
    Scoped u todosCols Todo.col (fun t => t.username)
      [.col .todolists_id, .eq, .param 1, .and, .col .username, .eq, .param 2]
      [p, .text u] := by
  intro c hc t ht
  have hp : prepare todosCols
      [.col .todolists_id, .eq, .param 1, .and, .col .username, .eq, .param 2] [p, .text u] =
      .ok (.and (.colEqParam .todolists_id 1) (.colEqParam .username 2)) := rfl
  rw [hp] at hc
  cases hc
  cases p <;> simp [Cond.holds, Cond.eval, Todo.col, sqlAnd_none_left] at ht
  all_goals exact ht.2

theorem scoped_todos_todo (u : String) (l i : Int) :
    Scoped u todosCols Todo.col (fun t => t.username)
      [.col .todolists_id, .eq, .param 1, .and, .col .id, .eq, .param 2, .and,
        .col .username, .eq, .param 3]
      [.int l, .int i, .text u] := by
  intro c hc t ht
  have hp : prepare todosCols
      [.col .todolists_id, .eq, .param 1, .and, .col .id, .eq, .param 2, .and,
        .col .username, .eq, .param 3] [.int l, .int i, .text u] =
      .ok (.and (.and (.colEqParam .todolists_id 1) (.colEqParam .id 2))
        (.colEqParam .username 3)) := rfl
  rw [hp] at hc
  cases hc
  simp [Cond.holds, Cond.eval, Todo.col] at ht
  exact ht.2

theorem scoped_todos_malformed (u : String) (l : Int) :
    Scoped u todosCols Todo.col (fun t => t.username)
      [.col .todolists_id, .eq, .param 1, .and, .not, .and, .col .username, .eq, .param 2,
        .col .done]
      [.int l, .text u] := by
  intro c hc
  have hp : prepare todosCols
      [.col .todolists_id, .eq, .param 1, .and, .not, .and, .col .username, .eq, .param 2,
        .col .done] [.int l, .text u] = .error syntaxError := rfl
  rw [hp] at hc
  cases hc

theorem scoped_todolists_id (u : String) (l : Int) :
    Scoped u todolistsCols TodoListRow.col (fun r => r.username)
      [.col .id, .eq, .param 1, .and, .col .username, .eq, .param 2]
      [.int l, .text u] := by
  intro c hc r hr
  have hp : prepare todolistsCols
      [.col .id, .eq, .param 1, .and, .col .username, .eq, .param 2] [.int l, .text u] =
      .ok (.and (.colEqParam .id 1) (.colEqParam .username 2)) := rfl
  rw [hp] at hc
  cases hc
  simp [Cond.holds, Cond.eval, TodoListRow.col] at hr
  exact hr.2

theorem scoped_todolists_rename (u title : String) (l : Int) :
    Scoped u todolistsCols TodoListRow.col (fun r => r.username)
      [.col .id, .eq, .param 2, .and, .col .username, .eq, .param 3]
      [.text title, .int l, .text u] := by
  intro c hc r hr
  have hp : prepare todolistsCols
      [.col .id, .eq, .param 2, .and, .col .username, .eq, .param 3]
      [.text title, .int l, .text u] =
      .ok (.and (.colEqParam .id 2) (.colEqParam .username 3)) := rfl
  rw [hp] at hc
  cases hc
  simp [Cond.holds, Cond.eval, TodoListRow.col] at hr
  exact hr.2

theorem scoped_todolists_title (u title : String) :
    Scoped u todolistsCols TodoListRow.col (fun r => r.username)
      [.col .title, .eq, .param 1, .and, .col .username, .eq, .param 2]
      [.text title, .text u] := by
  intro c hc r hr
  have hp : prepare todolistsCols
      [.col .title, .eq, .param 1, .and, .col .username, .eq, .param 2]
      [.text title, .text u] =
      .ok (.and (.colEqParam .title 1) (.colEqParam .username 2)) := rfl
  rw [hp] at hc
  cases hc
  simp [Cond.holds, Cond.eval, TodoListRow.col] at hr
  exact hr.2

/-! ### The outcome of a method depends on the rows of its user only -/

theorem run_outcome_scope (f : Todo → JsVal) (u : String) (op : Op) (s : Store) :
    (run f u op s).1 = (run f u op (scope u s)).1 := by
  cases op with
  | sortedTodoLists =>
    simp only [run, sortedTodoLists]
    rw [selectTodoLists_scope u _ _ _ (scoped_todolists_username u) s,
      selectTodos_scope u _ _ _ (scoped_todos_username u) s]
  | sortedTodos todoList =>
    simp only [run, sortedTodos]
    rw [selectTodos_scope u _ _ _ (scoped_todos_list u _) s]
  | loadTodoList l =>
    simp only [run, loadTodoList]
    rw [selectTodoLists_scope u _ _ _ (scoped_todolists_id u l) s,
      selectTodos_scope u _ _ _ (scoped_todos_list u _) s]
  | loadTodo l i =>
    simp only [run, loadTodo]
    rw [selectTodos_scope u _ _ _ (scoped_todos_todo u l i) s]
  | toggleDoneTodo l i =>
    simp only [run, toggleDoneTodo]
    rw [updateTodos_scope u _ _ _ (scoped_todos_todo u l i) s]
  | deleteTodo l i =>
    simp only [run, deleteTodo]
    rw [deleteTodos_scope u _ _ (scoped_todos_todo u l i) s]
  | completeAllTodos l =>
    simp only [run, completeAllTodos]
    rw [updateTodos_scope u _ _ _ (scoped_todos_malformed u l) s]
  | createTodo l title =>
    simp only [run, createTodo]
    rw [insertTodo_scope u title l s]
  | deleteTodoList l =>
    simp only [run, deleteTodoList]
    rw [deleteTodoLists_scope u _ _ (scoped_todolists_id u l) s]
  | setTodoListTitle l title =>
    simp only [run, setTodoListTitle]
    rw [updateTodoListTitle_scope u title _ _ (scoped_todolists_rename u title l) s]
  | existsTodoListTitle title =>
    simp only [run, existsTodoListTitle]
    rw [selectTodoLists_scope u _ _ _ (scoped_todolists_title u title) s]
  | createTodoList title =>
    simp only [run, createTodoList]
    rw [insertTodoList_scope u title s]

theorem othersUntouched_refl (u : String) (s : Store) : othersUntouched u s s :=
  ⟨rfl, rfl, rfl⟩

theorem run_others (f : Todo → JsVal) (u : String) (op : Op) (s : Store) :
    othersUntouched u s (run f u op s).2 := by
  cases op with
  | sortedTodoLists => exact othersUntouched_refl u s
  | sortedTodos todoList => exact othersUntouched_refl u s
  | loadTodoList l => exact othersUntouched_refl u s
  | loadTodo l i => exact othersUntouched_refl u s
  | toggleDoneTodo l i =>
    exact updateTodos_others u (fun t => { t with done := !t.done }) (fun _ => rfl) _ _
      (scoped_todos_todo u l i) s
  | deleteTodo l i => exact deleteTodos_others u _ _ (scoped_todos_todo u l i) s
  | completeAllTodos l =>
    exact updateTodos_others u (fun t => { t with done := true }) (fun _ => rfl) _ _
      (scoped_todos_malformed u l) s
  | createTodo l title => exact insertTodo_others u title l s
  | deleteTodoList l => exact deleteTodoLists_others u _ _ (scoped_todolists_id u l) s
  | setTodoListTitle l title =>
    exact updateTodoListTitle_others u title _ _ (scoped_todolists_rename u title l) s
  | existsTodoListTitle title => exact othersUntouched_refl u s
  | createTodoList title => exact insertTodoList_others u title s

/-! ### Every returned row is a row of the user -/

theorem except_map_ok {ε α β : Type} (g : α → β) (x : Except ε α) (v : β)
    (h : x.map g = .ok v) : ∃ a, x = .ok a ∧ v = g a := by
  cases x with
  | error e => cases h
  | ok a =>
    refine ⟨a, rfl, ?_⟩
    have h2 : Except.ok (g a) = (Except.ok v : Except ε β) := h
    cases h2
    rfl

theorem selectTodos_owned (u : String) (order : List Todo → List Todo)
    (horder : ∀ l t, t ∈ order l → t ∈ l) (tokens : List Tok) (params : List SqlVal)
    (h : Scoped u todosCols Todo.col (fun t => t.username) tokens params)
    (s : Store) (result : QueryResult Todo)
    (hr : selectTodos order tokens params s = .ok result) :
    ∀ t ∈ result.rows, t.username = u := by
  unfold selectTodos at hr
  cases hp : prepare todosCols tokens params with
  | error e => rw [hp] at hr; cases hr
  | ok c =>
    rw [hp] at hr
    cases hr
    intro t ht
    exact h c hp t (List.mem_filter.mp (horder _ t ht)).2

theorem selectTodoLists_owned (u : String) (order : List TodoListRow → List TodoListRow)
    (horder : ∀ l r, r ∈ order l → r ∈ l) (tokens : List Tok) (params : List SqlVal)
    (h : Scoped u todolistsCols TodoListRow.col (fun r => r.username) tokens params)
    (s : Store) (result : QueryResult TodoListRow)
    (hr : selectTodoLists order tokens params s = .ok result) :
    ∀ r ∈ result.rows, r.username = u := by
  unfold selectTodoLists at hr
  cases hp : prepare todolistsCols tokens params with
  | error e => rw [hp] at hr; cases hr
  | ok c =>
    rw [hp] at hr
    cases hr
    intro r hmem
    exact h c hp r (List.mem_filter.mp (horder _ r hmem)).2

theorem mem_orderByLowerTitle (l : List TodoListRow) (r : TodoListRow)
    (h : r ∈ orderByLowerTitle l) : r ∈ l :=
  (List.perm_insertionSort _ l).mem_iff.mp h

theorem mem_orderByDoneLowerTitle (l : List Todo) (t : Todo)
    (h : t ∈ orderByDoneLowerTitle l) : t ∈ l :=
  (List.perm_insertionSort _ l).mem_iff.mp h

theorem filterAssign_subset (f : Todo → JsVal) (todos : List Todo) (v : JsVal) :
    ∀ t ∈ (filterAssign f v todos).2, t ∈ todos := by
  induction todos generalizing v with
  | nil => intro t ht; cases ht
  | cons x xs ih =>
    intro t ht
    simp only [filterAssign] at ht
    split at ht
    · rcases List.mem_cons.mp ht with h | h
      · exact h ▸ List.mem_cons_self _ _
      · exact List.mem_cons_of_mem _ (ih _ t h)
    · exact List.mem_cons_of_mem _ (ih _ t ht)

theorem mem_partition (todoLists : List TodoList) (t : TodoList) :
    t ∈ _partitionTodoLists todoLists ↔ t ∈ todoLists := by
  rw [partition_eq_filter, List.mem_append, List.mem_filter, List.mem_filter]
  constructor
  · rintro (h | h) <;> exact h.1
  · intro h
    by_cases hd : isDoneTodoList t = true
    · exact Or.inr ⟨h, hd⟩
    · exact Or.inl ⟨h, by simp [hd]⟩

theorem ofRows_owned (f : Todo → JsVal) (u : String) (lists : List TodoListRow)
    (todos : List Todo) (hl : ∀ r ∈ lists, r.username = u) (ht : ∀ t ∈ todos, t.username = u) :
    ∀ name ∈ (Value.todoLists (sortedTodoLists.ofRows f (some lists) (some todos))).owners,
      name = u := by
  intro name hname
  simp only [sortedTodoLists.ofRows, Value.owners, List.mem_flatMap] at hname
  obtain ⟨tl, htl, hmem⟩ := hname
  rw [mem_partition, List.mem_map] at htl
  obtain ⟨r, hr, rfl⟩ := htl
  simp only [TodoList.owners, attachTodos, List.mem_cons, List.mem_map] at hmem
  rcases hmem with h | ⟨t, ht2, rfl⟩
  · rw [h]; exact hl r hr
  · exact ht t (filterAssign_subset f todos _ t ht2)

theorem run_owners (f : Todo → JsVal) (u : String) (op : Op) (s : Store) (v : Value)
    (h : (run f u op s).1 = .ok v) : ∀ name ∈ v.owners, name = u := by
  cases op with
  | sortedTodoLists =>
    simp only [run] at h
    obtain ⟨a, ha, rfl⟩ := except_map_ok _ _ _ h
    unfold sortedTodoLists at ha
    cases h1 : selectTodoLists orderByLowerTitle [.col .username, .eq, .param 1] [.text u] s with
    | error e => rw [h1] at ha; cases ha
    | ok r1 =>
      cases h2 : selectTodos id [.col .username, .eq, .param 1] [.text u] s with
      | error e => rw [h1, h2] at ha; cases ha
      | ok r2 =>
        rw [h1, h2] at ha
        cases ha
        exact ofRows_owned f u _ _
          (selectTodoLists_owned u _ mem_orderByLowerTitle _ _ (scoped_todolists_username u)
            s r1 h1)
          (selectTodos_owned u _ (fun _ _ h => h) _ _ (scoped_todos_username u) s r2 h2)
  | sortedTodos todoList =>
    simp only [run] at h
    obtain ⟨a, ha, rfl⟩ := except_map_ok _ _ _ h
    obtain ⟨r, hr, rfl⟩ := except_map_ok _ _ _ ha
    intro name hname
    simp only [Value.owners, List.mem_map] at hname
    obtain ⟨t, ht, rfl⟩ := hname
    exact selectTodos_owned u _ mem_orderByDoneLowerTitle _ _ (scoped_todos_list u _) s r hr t ht
  | loadTodoList l =>
    simp only [run] at h
    obtain ⟨a, ha, rfl⟩ := except_map_ok _ _ _ h
    unfold loadTodoList at ha
    cases h1 : selectTodoLists id [.col .id, .eq, .param 1, .and, .col .username, .eq, .param 2]
        [.int l, .text u] s with
    | error e => rw [h1] at ha; cases ha
    | ok r1 =>
      cases h2 : selectTodos id
          [.col .todolists_id, .eq, .param 1, .and, .col .username, .eq, .param 2]
          [.int l, .text u] s with
      | error e => rw [h1, h2] at ha; cases ha
      | ok r2 =>
        rw [h1, h2] at ha
        dsimp only at ha
        have hl := selectTodoLists_owned u _ (fun _ _ h => h) _ _ (scoped_todolists_id u l)
          s r1 h1
        have ht := selectTodos_owned u _ (fun _ _ h => h) _ _ (scoped_todos_list u (.int l))
          s r2 h2
        cases hrows : r1.rows with
        | nil =>
          rw [hrows] at ha
          cases ha
          intro name hname
          cases hname
        | cons row rest =>
          rw [hrows] at ha
          cases ha
          intro name hname
          simp only [Value.owners, TodoList.owners, List.mem_cons, List.mem_map] at hname
          rcases hname with h | ⟨t, ht2, rfl⟩
          · rw [h]; exact hl row (by rw [hrows]; exact List.mem_cons_self _ _)
          · exact ht t ht2
  | loadTodo l i =>
    simp only [run] at h
    obtain ⟨a, ha, rfl⟩ := except_map_ok _ _ _ h
    obtain ⟨r, hr, rfl⟩ := except_map_ok _ _ _ ha
    have ht := selectTodos_owned u _ (fun _ _ h => h) _ _ (scoped_todos_todo u l i) s r hr
    intro name hname
    cases hrows : r.rows with
    | nil => rw [hrows] at hname; cases hname
    | cons t rest =>
      rw [hrows] at hname
      simp only [List.head?_cons, Value.owners, List.mem_singleton] at hname
      rw [hname]
      exact ht t (by rw [hrows]; exact List.mem_cons_self _ _)
  | toggleDoneTodo l i =>
    simp only [run] at h
    obtain ⟨a, _, rfl⟩ := except_map_ok _ _ _ h
    intro name hname; cases hname
  | deleteTodo l i =>
    simp only [run] at h
    obtain ⟨a, _, rfl⟩ := except_map_ok _ _ _ h
    intro name hname; cases hname
  | completeAllTodos l =>
    simp only [run] at h
    obtain ⟨a, _, rfl⟩ := except_map_ok _ _ _ h
    intro name hname; cases hname
  | createTodo l title =>
    simp only [run] at h
    obtain ⟨a, _, rfl⟩ := except_map_ok _ _ _ h
    intro name hname; cases hname
  | deleteTodoList l =>
    simp only [run] at h
    obtain ⟨a, _, rfl⟩ := except_map_ok _ _ _ h
    intro name hname; cases hname
  | setTodoListTitle l title =>
    simp only [run] at h
    obtain ⟨a, _, rfl⟩ := except_map_ok _ _ _ h
    intro name hname; cases hname
  | existsTodoListTitle title =>
    simp only [run] at h
    obtain ⟨a, _, rfl⟩ := except_map_ok _ _ _ h
    intro name hname; cases hname
  | createTodoList title =>
    simp only [run] at h
    obtain ⟨a, _, rfl⟩ := except_map_ok _ _ _ h
    intro name hname; cases hname

/-! ### `completeAllTodos` and `toggleDoneTodo` -/

/-- The statement of `completeAllTodos` is rejected by the parser on every store:
after `AND NOT` an operand is expected and `AND` is read. -/
theorem completeAllTodos_syntax_error (username : String) (todoListId : Int) (s : Store) :
    completeAllTodos username todoListId s = (.error syntaxError, s) := rfl

/-- C7: on the store of alice, whose todo Eggs of list 1 is not done,
`completeAllTodos` for list 1 raises the syntax error of its statement and
leaves the store as it was, Eggs not done. -/
theorem completeAllTodos_fails :
    completeAllTodos "alice" 1 aliceStore = (.error syntaxError, aliceStore) ∧
    aliceEggs ∈ aliceStore.todos ∧ aliceEggs.todolists_id = 1 ∧
    aliceEggs.username = "alice" ∧ aliceEggs.done = false := by
  refine ⟨rfl, ?_, rfl, rfl, rfl⟩
  decide

/-- The todos `WHERE todolists_id = $1 AND id = $2 AND username = $3` selects. -/
theorem holds_todo (t : Todo) (l i : Int) (u : String) :
    Cond.holds t.col [.int l, .int i, .text u]
      (.and (.and (.colEqParam .todolists_id 1) (.colEqParam .id 2)) (.colEqParam .username 3)) =
      isTodo u l i t := by
  simp [Cond.holds, Cond.eval, Todo.col, isTodo]

theorem toggleDoneTodo_eq (u : String) (l i : Int) (s : Store) :
    toggleDoneTodo u l i s =
      (.ok (decide (0 < s.todos.countP (isTodo u l i))),
        { s with todos := s.todos.map (fun t =>
            if isTodo u l i t = true then { t with done := !t.done } else t) }) := by
  have hp : prepare todosCols
      [.col .todolists_id, .eq, .param 1, .and, .col .id, .eq, .param 2, .and,
        .col .username, .eq, .param 3] [.int l, .int i, .text u] =
      .ok (.and (.and (.colEqParam .todolists_id 1) (.colEqParam .id 2))
        (.colEqParam .username 3)) := rfl
  simp only [toggleDoneTodo, updateTodos, hp, holds_todo]
  rfl

theorem isTodo_toggle (u : String) (l i : Int) (t : Todo) :
    isTodo u l i (if isTodo u l i t = true then { t with done := !t.done } else t) =
      isTodo u l i t := by
  split <;> rfl

theorem countP_toggle (u : String) (l i : Int) (todos : List Todo) :
    (todos.map (fun t => if isTodo u l i t = true then { t with done := !t.done } else t)).countP
        (isTodo u l i) = todos.countP (isTodo u l i) := by
  rw [List.countP_map]
  apply List.countP_congr
  intro t _
  simp only [Function.comp, isTodo_toggle]

theorem map_toggle_toggle (u : String) (l i : Int) (todos : List Todo) :
    (todos.map (fun t => if isTodo u l i t = true then { t with done := !t.done } else t)).map
        (fun t => if isTodo u l i t = true then { t with done := !t.done } else t) = todos := by
  rw [List.map_map]
  conv_rhs => rw [← List.map_id todos]
  apply List.map_congr_left
  intro t _
  by_cases h : isTodo u l i t = true
  · have h2 : isTodo u l i { t with done := !t.done } = true := h
    simp [h, h2]
  · simp [h]

/-- C8: when the store holds a todo of the user with this list id and this id,
two calls of `toggleDoneTodo` in a row both return true and leave the store as it
was; the first call negates `done` on the todos with this list id, id and
username and leaves every other todo, and the other tables, unchanged. -/
theorem toggleDoneTodo_twice (username : String) (todoListId todoId : Int) (s : Store)
    (todo : Todo) (hmem : todo ∈ s.todos) (hlist : todo.todolists_id = todoListId)
    (hid : todo.id = todoId) (huser : todo.username = username) :
    (toggleDoneTodo username todoListId todoId s).1 = .ok true ∧
    (toggleDoneTodo username todoListId todoId
      (toggleDoneTodo username todoListId todoId s).2).1 = .ok true ∧
    (toggleDoneTodo username todoListId todoId
      (toggleDoneTodo username todoListId todoId s).2).2 = s ∧
    (toggleDoneTodo username todoListId todoId s).2 =
      { s with todos := s.todos.map (fun t =>
          if t.todolists_id = todoListId ∧ t.id = todoId ∧ t.username = username
          then { t with done := !t.done } else t) } := by
  have hpos : 0 < s.todos.countP (isTodo username todoListId todoId) :=
    List.countP_pos_iff.mpr ⟨todo, hmem, by simp [isTodo, hlist, hid, huser]⟩
  refine ⟨?_, ?_, ?_, ?_⟩
  · rw [toggleDoneTodo_eq]
    simp [hpos]
  · rw [toggleDoneTodo_eq, toggleDoneTodo_eq]
    simp only [countP_toggle]
    simp [hpos]
  · rw [toggleDoneTodo_eq, toggleDoneTodo_eq]
    simp only [map_toggle_toggle]
  · rw [toggleDoneTodo_eq]
    simp [isTodo, and_assoc]

/-- A witness of C8: alice toggles Eggs, todo 2 of her list 1, in the store she
shares with bob. -/
theorem toggleDoneTodo_twice_witness :
    aliceEggs ∈ sharedStore.todos ∧
    (toggleDoneTodo "alice" 1 2 (toggleDoneTodo "alice" 1 2 sharedStore).2).2 = sharedStore ∧
    (toggleDoneTodo "alice" 1 2 sharedStore).2.todos =
      [aliceMilk, bobReport, { aliceEggs with done := true }] :=
  ⟨by decide,
    (toggleDoneTodo_twice "alice" 1 2 sharedStore aliceEggs (by decide) rfl rfl rfl).2.2.1,
    by decide⟩

/-! ### Scoping to the user -/

/-- C9: a method called for `username` returns the same outcome (value or raised
error) on two stores that hold the same rows of `username`, leaves the rows of
the other users as they were, and returns rows of `username` only. -/
theorem operations_scoped_to_username (todolist_id : Todo → JsVal) (username : String)
    (op : Op) (s1 s2 : Store) (h : sameRowsOf username s1 s2) :
    (run todolist_id username op s1).1 = (run todolist_id username op s2).1 ∧
    othersUntouched username s1 (run todolist_id username op s1).2 ∧
    (∀ v, (run todolist_id username op s1).1 = .ok v →
      ∀ name ∈ v.owners, name = username) := by
  have hscope : scope username s1 = scope username s2 := by
    simp only [scope, h.1, h.2]
  refine ⟨?_, run_others todolist_id username op s1, run_owners todolist_id username op s1⟩
  rw [run_outcome_scope todolist_id username op s1, hscope,
    ← run_outcome_scope todolist_id username op s2]

/-- A witness of C9: alice's store and the store she shares with bob hold the
same rows of alice; `sortedTodoLists` returns the same lists on both. -/
theorem operations_scoped_to_username_witness :
    sameRowsOf "alice" aliceStore sharedStore ∧
    (run listReference "alice" .sortedTodoLists aliceStore).1 =
      (run listReference "alice" .sortedTodoLists sharedStore).1 :=
  ⟨⟨by decide, by decide⟩,
    (operations_scoped_to_username listReference "alice" .sortedTodoLists aliceStore sharedStore
      ⟨by decide, by decide⟩).1⟩

end PgPersistence
